import Mathlib

/-!
Verification development for `src/context/ast/pythonParser.py` of the Lata
repository: a shallow embedding of its context-extraction pipeline
(fault-tolerant parse driver, definition extractor, import resolver with
memoized cache, mode-based pruner, and text renderer), followed by theorems
settling the specification's claims about it.

The Python `ast` module is the external Syntax Adapter of the design: we
model its tree nodes as inductive types that carry the adapter-visible
attributes (reconstructed source text for argument lists, decorators and
annotations; evaluated values for literal nodes), and the parse entry point
`ast.parse` as an explicit function parameter producing either a statement
list or a structured syntax error with a 1-based line number.
-/

namespace PythonParser

/-- Python values that `ast.literal_eval` can produce and that the renderer
inspects with `isinstance`: None, strings, integers, booleans, lists and
dictionaries (`{...}` displays). -/
inductive PyVal where
  | vNone
  | vStr (s : String)
  | vInt (n : Int)
  | vBool (b : Bool)
  | vList (elts : List PyVal)
  | vDict (entries : List (PyVal × PyVal))

mutual

/-- Python `repr` of a value, as produced for `ast.Constant` nodes by
`get_node_repr` (e.g. 5 -> "5", "hi" -> "'hi'", True -> "True"). -/
def pyRepr : PyVal → String
  | .vNone => "None"
  | .vStr s => "\x27" ++ s ++ "\x27"
  | .vInt n => toString n
  | .vBool b => if b then "True" else "False"
  | .vList elts => "[" ++ pyReprList elts ++ "]"
  | .vDict entries => "\x7b" ++ pyReprPairs entries ++ "\x7d"

/-- Comma-separated `repr` of list elements. -/
def pyReprList : List PyVal → String
  | [] => ""
  | [v] => pyRepr v
  | v :: rest => pyRepr v ++ ", " ++ pyReprList rest

/-- Comma-separated `repr` of dictionary entries. -/
def pyReprPairs : List (PyVal × PyVal) → String
  | [] => ""
  | [p] => pyRepr p.1 ++ ": " ++ pyRepr p.2
  | p :: rest => pyRepr p.1 ++ ": " ++ pyRepr p.2 ++ ", " ++ pyReprPairs rest

end

/-- Expression nodes, abstracted to what the pipeline observes:
`constant v` models a literal node whose evaluated value is `v`
(an `ast.Constant` or a literal display recognized by `ast.literal_eval`);
`name id` models an `ast.Name`; `other src` models any other node together
with its `ast.unparse` text. -/
inductive Expr where
  | constant (v : PyVal)
  | name (id : String)
  | other (src : String)

/-- `ast.unparse` of an expression node. For literal nodes the unparsed
text coincides with the `repr` of the value. -/
def exprUnparse : Expr → String
  | .constant v => pyRepr v
  | .name id => id
  | .other src => src

/-- `get_node_repr`: code representation of a node as a string — `repr` of
the value for `ast.Constant` nodes, `ast.unparse` otherwise. -/
def get_node_repr : Expr → String
  | .constant v => pyRepr v
  | e => exprUnparse e

/-- `_get_literal_value`: `ast.literal_eval` wrapped to return None on
failure. A literal `None` evaluates to Python `None`, which the caller
cannot tell apart from failure, so both map to `none` here. -/
def literalEval : Expr → Option PyVal
  | .constant .vNone => none
  | .constant v => some v
  | .name _ => none
  | .other _ => none

/-- Assignment targets: a plain name, an attribute access (e.g. `self.x`),
or anything else (tuples etc., which the extractor skips). -/
inductive Target where
  | tname (id : String)
  | tattr (base : Expr) (attr : String)
  | tother

/-- `ast.unparse` of an assignment target. -/
def targetUnparse : Target → String
  | .tname id => id
  | .tattr base attr => exprUnparse base ++ "." ++ attr
  | .tother => "<target>"

/-- One `ast.alias` of an import statement: the imported name and the
optional `as` rename. -/
structure Alias where
  name : String
  asname : Option String
deriving DecidableEq

/-- Top-level / body statements, carrying the adapter-visible pieces:
argument lists, decorators and return annotations are kept as their
`ast.unparse` text; import statements carry their raw source text. -/
inductive Stmt where
  | assign (targets : List Target) (value : Expr)
  | funcDecl (name : String) (args : String) (decorators : List String)
      (returns : Option String) (body : List Stmt)
  | classDecl (name : String) (bases : List String) (decorators : List String)
      (body : List Stmt)
  | importPlain (src : String)
  | importFrom (module : Option String) (names : List Alias) (src : String)
  | ret (value : Option Expr)
  | exprStmt (e : Expr)
  | pass

/-- `ast.unparse` of an assignment statement: `t1 = t2 = value`. -/
def assignUnparse (targets : List Target) (value : Expr) : String :=
  String.intercalate " = " (targets.map targetUnparse ++ [exprUnparse value])

/-- `ast.get_docstring(node, clean=False)`: the leading string constant of a
body, when present. -/
def get_docstring : List Stmt → Option String
  | .exprStmt (.constant (.vStr s)) :: _ => some s
  | _ => none

/-- The descriptor `parse_function` builds for one `ast.FunctionDef`. -/
structure FuncInfo where
  name : String
  args : String
  decorators : List String
  returns_hint : Option String
  return_expression : Option String
  return_literal_obj : Option PyVal
  docstring : Option String
  init_assignments : List String

/-- The `for item in reversed(node.body)` scan of `parse_function`: the last
`ast.Return` statement carrying a value. -/
def findLastReturn : List Stmt → Option Expr
  | [] => none
  | s :: rest =>
    match findLastReturn rest with
    | some e => some e
    | none =>
      match s with
      | .ret (some v) => some v
      | _ => none

/-- Test from `parse_function`: the target is an attribute access on the
name `self`. -/
def isSelfAttrTarget : Target → Bool
  | .tattr (.name id) _ => id == "self"
  | _ => false

/-- The constructor self-assignment collection of `parse_function`: one
unparsed statement per `self.`-attribute target of each direct `ast.Assign`
of the body, in source order. -/
def initAssignments : List Stmt → List String
  | [] => []
  | .assign targets value :: rest =>
      (targets.filter isSelfAttrTarget).map (fun _ => assignUnparse targets value)
        ++ initAssignments rest
  | _ :: rest => initAssignments rest

/-- `parse_function`: builds the rich descriptor of one function node. -/
def parse_function (name args : String) (decorators : List String)
    (returns : Option String) (body : List Stmt) : FuncInfo :=
  let retv := findLastReturn body
  { name := name
    args := args
    decorators := decorators
    returns_hint := returns
    return_expression := retv.map get_node_repr
    return_literal_obj := retv.bind literalEval
    docstring := get_docstring body
    init_assignments := if name == "__init__" then initAssignments body else [] }

/-- The descriptor `parse_class` builds for one `ast.ClassDef`. -/
structure ClassInfo where
  name : String
  bases : List String
  decorators : List String
  docstring : Option String
  methods : List FuncInfo
  «variables» : List (String × String)

/-- CPython dict assignment `d[k] = v` on an insertion-ordered dictionary:
replace in place when the key exists, append otherwise. -/
def dictInsert (d : List (String × String)) (k v : String) : List (String × String) :=
  if d.any (fun p => p.1 == k) then
    d.map (fun p => if p.1 == k then (k, v) else p)
  else d ++ [(k, v)]

/-- The class-variable dict comprehension of `parse_class`. -/
def classVariables (body : List Stmt) : List (String × String) :=
  body.foldl (fun acc s =>
    match s with
    | .assign targets value =>
        targets.foldl (fun acc2 t =>
          match t with
          | .tname id => dictInsert acc2 id (get_node_repr value)
          | _ => acc2) acc
    | _ => acc) []

/-- `parse_class`: builds the descriptor of one class node; methods come
only from direct function declarations of the class body. -/
def parse_class (name : String) (bases decorators : List String)
    (body : List Stmt) : ClassInfo :=
  { name := name
    bases := bases
    decorators := decorators
    docstring := get_docstring body
    methods := body.foldr (fun s acc =>
      match s with
      | .funcDecl n a d r b => parse_function n a d r b :: acc
      | _ => acc) []
    «variables» := classVariables body }

/-- `os.path.abspath`. File paths are modelled as already-absolute POSIX
strings, so absolutization is the identity. -/
def abspath (p : String) : String := p

/-- Splitting a character list at every occurrence of a separator
character, the pieces accumulated in reverse. -/
def splitOnCharAux (sep : Char) : List Char → List Char → List String
  | [], acc => [String.mk acc.reverse]
  | c :: rest, acc =>
      if c == sep then String.mk acc.reverse :: splitOnCharAux sep rest []
      else splitOnCharAux sep rest (c :: acc)

/-- Splitting a string at every occurrence of a separator character
(`str.split(sep)` for a one-character separator). -/
def splitOnChar (sep : Char) (s : String) : List String :=
  splitOnCharAux sep s.data []

/-- `os.path.dirname` over POSIX paths. -/
def dirname (p : String) : String :=
  String.intercalate "/" (splitOnChar '/' p).dropLast

/-- `os.path.basename` over POSIX paths. -/
def basename (p : String) : String :=
  ((splitOnChar '/' p).getLast?).getD ""

/-- `os.path.join` over POSIX paths (as used here: joining a directory with
a relative module path). -/
def pathJoin (a b : String) : String := a ++ "/" ++ b

/-- `module.replace('.', os.sep)`: the dotted module path with every dot
substituted by the path separator. -/
def pyReplaceDotWithSlash (s : String) : String :=
  String.mk (s.data.map (fun c => if c == '.' then '/' else c))

/-- `name.startswith('_')`: the conventional privacy marker test. -/
def pyStartsWithUnderscore (s : String) : Bool :=
  match s.data with
  | c :: _ => c == '_'
  | [] => false

/-- Python `str.splitlines` restricted to newline separators: like splitting
on the newline character, but without a final empty piece for a trailing
newline (and the empty string has no lines). -/
def pySplitlines (s : String) : List String :=
  let l := splitOnChar '\n' s
  if l.getLast? = some "" then l.dropLast else l

/-- The pruning mode; `__main__` coerces any other command-line string to
`intelligent` before the pipeline runs, so the pipeline only ever sees
these three. -/
inductive Mode where
  | full
  | intelligent
  | pruned
deriving DecidableEq

/-- A file's extracted context: module name, import records
(raw source text, optional target module, optional resolved context),
variables (insertion-ordered name/value text pairs), functions, classes and
the optional error of an unrecoverable parse failure. -/
inductive Context where
  | mk : String → List (String × Option String × Option Context) →
      List (String × String) → List FuncInfo → List ClassInfo →
      Option String → Context

def Context.module_name : Context → String
  | .mk v _ _ _ _ _ => v

def Context.imports : Context → List (String × Option String × Option Context)
  | .mk _ v _ _ _ _ => v

def Context.«variables» : Context → List (String × String)
  | .mk _ _ v _ _ _ => v

def Context.functions : Context → List FuncInfo
  | .mk _ _ _ v _ _ => v

def Context.classes : Context → List ClassInfo
  | .mk _ _ _ _ v _ => v

def Context.error : Context → Option String
  | .mk _ _ _ _ _ v => v

def Context.withImports : Context → List (String × Option String × Option Context) → Context
  | .mk n _ v f c e, i => .mk n i v f c e

def Context.withVars : Context → List (String × String) → Context
  | .mk n i _ f c e, v => .mk n i v f c e

def Context.withFuns : Context → List FuncInfo → Context
  | .mk n i v _ c e, f => .mk n i v f c e

def Context.withClasses : Context → List ClassInfo → Context
  | .mk n i v f _ e, c => .mk n i v f c e

def Context.withError : Context → Option String → Context
  | .mk n i v f c _, e => .mk n i v f c e

/-- The fresh `definitions` dictionary of `parse_file` (module name set to
the file's base name, everything else empty, no error key). -/
def emptyContext (moduleName : String) : Context :=
  .mk moduleName [] [] [] [] none

/-- `_prune_context`: filters the context of an imported file by the
active mode. `full` returns the input unchanged; `intelligent` keeps
declarations whose name does not start with an underscore; `pruned` keeps
declarations whose name is among the import's listed names. The rebuilt
dictionary has an empty import list and no error key. -/
def _prune_context (full_context : Context) (imported_names : List String)
    (mode : Mode) : Context :=
  match mode with
  | .full => full_context
  | .intelligent =>
      .mk full_context.module_name []
        (full_context.variables.filter (fun kv => !(pyStartsWithUnderscore kv.1)))
        (full_context.functions.filter (fun f => !(pyStartsWithUnderscore f.name)))
        (full_context.classes.filter (fun c => !(pyStartsWithUnderscore c.name)))
        none
  | .pruned =>
      .mk full_context.module_name []
        (full_context.variables.filter (fun kv => decide (kv.1 ∈ imported_names)))
        (full_context.functions.filter (fun f => decide (f.name ∈ imported_names)))
        (full_context.classes.filter (fun c => decide (c.name ∈ imported_names)))
        none

/-- The retry preparation of `parse_file`: split the text into lines, delete
the reported 1-based line when it is in range, and rejoin with newlines. -/
def removeLine (content : String) (lineno : Nat) : String :=
  let lines := pySplitlines content
  let lines2 :=
    if 1 ≤ lineno ∧ lineno ≤ lines.length then lines.eraseIdx (lineno - 1)
    else lines
  String.intercalate "\n" lines2

/-- A structured syntax failure of the Adapter's parse entry point, with its
1-based line number and message. -/
structure SynErr where
  lineno : Nat
  msg : String
deriving DecidableEq

/-- Python `str()` of the final syntax failure, as interpolated into the
error field: the message followed by the reported position. -/
def renderExc (e : SynErr) : String :=
  e.msg ++ " (line " ++ toString e.lineno ++ ")"

/-- The error field written by `parse_file` when the retry also fails. -/
def doubleErrorMsg (e : SynErr) : String :=
  "File contains multiple errors. Last error: " ++ renderExc e

/-- The Adapter's parse entry point `ast.parse`: text to statement list, or
a structured syntax error. -/
abbrev ParseFn := String → Except SynErr (List Stmt)

/-- The file system visible to `parse_file`: absolute path to file text when
the file exists (`os.path.exists` + `open(...).read()` merged). -/
abbrev Storage := String → Option String

/-- The process-wide `parse_cache`, keyed by absolute path; a fresh binding
is consed on, so lookup sees the most recent write, matching dictionary
assignment. -/
abbrev Cache := List (String × Context)

/-- Dictionary lookup in the parse cache. -/
def cacheLookup : Cache → String → Option Context
  | [], _ => none
  | (k, v) :: rest, key => if k == key then some v else cacheLookup rest key

/-- One statement step of `_extract_definitions_from_tree`, parameterized by
the resolver used for from-imports (the recursive `parse_file` call). -/
def extractStmt (resolve : String → Cache → Option Context × Cache)
    (mode : Mode) (base : String) (s : Stmt) (defs : Context) (cache : Cache) :
    Context × Cache :=
  match s with
  | .assign targets value =>
      (defs.withVars (targets.foldl (fun vars t =>
        match t with
        | .tname id => dictInsert vars id (get_node_repr value)
        | _ => vars) defs.variables), cache)
  | .funcDecl name args decorators returns body =>
      (defs.withFuns (defs.functions ++ [parse_function name args decorators returns body]), cache)
  | .classDecl name bases decorators body =>
      (defs.withClasses (defs.classes ++ [parse_class name bases decorators body]), cache)
  | .importPlain src =>
      (defs.withImports (defs.imports ++ [(src, none, none)]), cache)
  | .importFrom mod aliases src =>
      match mod with
      | some m =>
        if m ≠ "" then
          let module_path := pathJoin base (pyReplaceDotWithSlash m ++ ".py")
          let r := resolve module_path cache
          match r.1 with
          | some full_resolved =>
              let imported_names := aliases.map Alias.name
              (defs.withImports (defs.imports ++
                [(src, some m, some (_prune_context full_resolved imported_names mode))]), r.2)
          | none =>
              (defs.withImports (defs.imports ++ [(src, some m, none)]), r.2)
        else (defs.withImports (defs.imports ++ [(src, none, none)]), cache)
      | none => (defs.withImports (defs.imports ++ [(src, none, none)]), cache)
  | _ => (defs, cache)

/-- `_extract_definitions_from_tree`: walks the top-level statements in
source order, populating the definitions dictionary. -/
def _extract_definitions_from_tree (resolve : String → Cache → Option Context × Cache)
    (mode : Mode) (base : String) :
    List Stmt → Context → Cache → Context × Cache
  | [], defs, cache => (defs, cache)
  | s :: rest, defs, cache =>
      let r := extractStmt resolve mode base s defs cache
      _extract_definitions_from_tree resolve mode base rest r.1 r.2

/-- The body of `parse_file` once the recursive occurrence is abstracted as
`recur`: cache check, content acquisition (supplied text, else storage read
with existence check), the parse attempt, the single line-deleting retry,
the error-only outcome, and the final cache write. -/
def parse_file_step (P : ParseFn) (st : Storage)
    (recur : Cache → String → Mode → Option String → Option Context × Cache)
    (cache : Cache) (filepath : String) (mode : Mode) (copt : Option String) :
    Option Context × Cache :=
  let abs := abspath filepath
  match cacheLookup cache abs with
  | some cached => (some cached, cache)
  | none =>
    match (match copt with | some c => some c | none => st abs) with
    | none => (none, cache)
    | some content =>
      let base := dirname abs
      let defs0 := emptyContext (basename abs)
      match P content with
      | .ok tree =>
          let r := _extract_definitions_from_tree
            (fun path c => recur c path mode none) mode base tree defs0 cache
          (some r.1, (abs, r.1) :: r.2)
      | .error e =>
          match P (removeLine content e.lineno) with
          | .ok tree =>
              let r := _extract_definitions_from_tree
                (fun path c => recur c path mode none) mode base tree defs0 cache
              (some r.1, (abs, r.1) :: r.2)
          | .error e2 =>
              let ctx := defs0.withError (some (doubleErrorMsg e2))
              (some ctx, (abs, ctx) :: cache)

/-- `parse_file`, the fault-tolerant parse driver and import resolver. The
Python recursion through the import graph is unbounded (a true import cycle
recurses without bound); the `fuel` argument makes that recursion explicit,
with `none` standing for a run that exceeds the modelled depth. -/
def parse_file (P : ParseFn) (st : Storage) :
    Nat → Cache → String → Mode → Option String → Option Context × Cache
  | 0, cache, _, _, _ => (none, cache)
  | fuel + 1, cache, filepath, mode, copt =>
      parse_file_step P st (parse_file P st fuel) cache filepath mode copt

/-- Python truthiness of an optional string, as tested by
`if func['returns_hint']:` and `if func['docstring']:` — absent and empty
are both falsy. -/
def pyTruthyStr : Option String → Bool
  | some s => s != ""
  | none => false

/-- `isinstance(val, str)`. -/
def pyIsinstanceStr : PyVal → Bool
  | .vStr _ => true
  | _ => false

/-- `isinstance(val, int)`. In Python `bool` is a subclass of `int`, so
`isinstance(True, int)` is true. -/
def pyIsinstanceInt : PyVal → Bool
  | .vInt _ => true
  | .vBool _ => true
  | _ => false

/-- `isinstance(val, bool)`. -/
def pyIsinstanceBool : PyVal → Bool
  | .vBool _ => true
  | _ => false

/-- `isinstance(val, list)`. -/
def pyIsinstanceList : PyVal → Bool
  | .vList _ => true
  | _ => false

/-- `isinstance(val, dict)`. -/
def pyIsinstanceDict : PyVal → Bool
  | .vDict _ => true
  | _ => false

/-- The `isinstance` chain labelling a recognized literal return value, in
the source's test order (str, then int, then bool, then list, then dict);
an unrecognized value leaves the label empty. -/
def litLabel (v : PyVal) : String :=
  if pyIsinstanceStr v then " -> str"
  else if pyIsinstanceInt v then " -> int"
  else if pyIsinstanceBool v then " -> bool"
  else if pyIsinstanceList v then " -> list"
  else if pyIsinstanceDict v then " -> dict"
  else ""

/-- The return-label chain for a top-level function: explicit hint if
truthy, else `None` when no return-with-value exists, else the literal
label when a literal value was recognized, else nothing. -/
def funcRetStr (f : FuncInfo) : String :=
  if pyTruthyStr f.returns_hint then " -> " ++ f.returns_hint.getD ""
  else if f.return_expression.isNone then " -> None"
  else
    match f.return_literal_obj with
    | some v => litLabel v
    | none => ""

/-- The return-label chain for a method: like the top-level chain, but a
method named `__init__` is labelled `None` outright. -/
def methodRetStr (m : FuncInfo) : String :=
  if pyTruthyStr m.returns_hint then " -> " ++ m.returns_hint.getD ""
  else if m.name == "__init__" || m.return_expression.isNone then " -> None"
  else
    match m.return_literal_obj with
    | some v => litLabel v
    | none => ""

/-- The optional docstring line at the given indentation (skipped when the
docstring is absent or empty, per Python truthiness). -/
def docLine (indent : String) (d : Option String) : List String :=
  match d with
  | some s => if s != "" then [indent ++ "\"\"\"" ++ s ++ "\"\"\""] else []
  | none => []

/-- The lines the renderer emits for one top-level function: decorator
markers, the signature with the inferred or declared label, the optional
docstring, the body marker, the optional return line, and a blank line. -/
def funcBlock (f : FuncInfo) : List String :=
  f.decorators.map (fun d => "@" ++ d)
    ++ ["def " ++ f.name ++ "(" ++ f.args ++ ")" ++ funcRetStr f ++ ":"]
    ++ docLine "    " f.docstring
    ++ ["    # some code lines"]
    ++ (match f.return_expression with
        | some r => ["    return " ++ r]
        | none => [])
    ++ [""]

/-- The lines the renderer emits for one method (one extra indent level):
decorators, signature, optional docstring, the collected constructor
self-assignments, the body marker, then the return line unless the method
is a constructor with collected assignments, and a blank line. -/
def methodBlock (m : FuncInfo) : List String :=
  m.decorators.map (fun d => "    @" ++ d)
    ++ ["    def " ++ m.name ++ "(" ++ m.args ++ ")" ++ methodRetStr m ++ ":"]
    ++ docLine "        " m.docstring
    ++ m.init_assignments.map (fun a => "        " ++ a)
    ++ ["        # some code lines"]
    ++ (match m.return_expression with
        | some r =>
            if m.name != "__init__" || m.init_assignments.isEmpty then
              ["        return " ++ r]
            else []
        | none => [])
    ++ [""]

/-- The lines the renderer emits for one class: decorators, the header with
the base list (parentheses omitted when empty), optional docstring, a blank
line, class variables with a trailing blank when any exist, each method's
block, and a final blank line. -/
def classBlock (cls : ClassInfo) : List String :=
  cls.decorators.map (fun d => "@" ++ d)
    ++ ["class " ++ cls.name ++
        (if !cls.bases.isEmpty then "(" ++ String.intercalate ", " cls.bases ++ ")" else "")
        ++ ":"]
    ++ docLine "    " cls.docstring
    ++ [""]
    ++ cls.variables.map (fun kv => "    " ++ kv.1 ++ " = " ++ kv.2)
    ++ (if !cls.variables.isEmpty then [""] else [])
    ++ (cls.methods.map methodBlock).flatten
    ++ [""]

/-- A rule of equals signs matching the module-name header's length. -/
def eqRule (n : Nat) : String := String.mk (List.replicate n '=')

/-- `format_context_as_text`: the deterministic rendering of one Context.
A Context whose error field is truthy renders as that error alone;
otherwise header, import block, variables block, function blocks and class
blocks are joined by newlines. -/
def format_context_as_text (c : Context) : String :=
  if pyTruthyStr c.error then c.error.getD ""
  else
    String.intercalate "\n"
      ([c.module_name, eqRule c.module_name.length]
        ++ (if !c.imports.isEmpty then c.imports.map (fun i => i.1) ++ [""] else [])
        ++ (if !c.variables.isEmpty then
              c.variables.map (fun kv => kv.1 ++ " = " ++ kv.2) ++ [""]
            else [])
        ++ (c.functions.map funcBlock).flatten
        ++ (c.classes.map classBlock).flatten)

/-- The import-deduplication fold of `__main__`: walk the entrypoint's
records of imports, accumulating rendered texts and formatted modules;
a record contributes its resolved context's rendering when it carries one
and its module has not been formatted yet. -/
def importTextsFold (imports : List (String × Option String × Option Context)) :
    List String × List (Option String) :=
  imports.foldl (fun acc imp =>
    match imp.2.2 with
    | some rc =>
        if imp.2.1 ∈ acc.2 then acc
        else (acc.1 ++ [format_context_as_text rc], acc.2 ++ [imp.2.1])
    | none => acc) ([], [])

/-- The primary output of the top-level invocation, as a function of the
parsed entrypoint Context (or its absence) and the entrypoint path: the
rendered entrypoint, then the banner and the rendered resolved imports when
any exist; an error Context or a failed parse yields a single error line. -/
def mainOutput (main_context : Option Context) (file_to_parse_path : String) : String :=
  match main_context with
  | some ctx =>
      if ctx.error.isSome then "Error parsing file: " ++ ctx.error.getD ""
      else
        let imported := (importTextsFold ctx.imports).1
        String.intercalate "\n"
          ([format_context_as_text ctx]
            ++ (if !imported.isEmpty then
                  ["\nImported files content", "======================"] ++ imported
                else []))
  | none => "Error: Could not parse file: " ++ file_to_parse_path

/-- Modelled from the spec: the Adapter operation
`boundNames(importStatement) -> set of string` — the names a from-import
statement binds in the importing namespace. Python's `from m import a as b`
binds `b`, so an alias's rename replaces the imported name when present. -/
def boundNames (names : List Alias) : List String :=
  names.map (fun a => (a.asname).getD a.name)

theorem error_withVars (c : Context) (v : List (String × String)) :
    (c.withVars v).error = c.error := by
  cases c; rfl

theorem error_withFuns (c : Context) (v : List FuncInfo) :
    (c.withFuns v).error = c.error := by
  cases c; rfl

theorem error_withClasses (c : Context) (v : List ClassInfo) :
    (c.withClasses v).error = c.error := by
  cases c; rfl

theorem error_withImports (c : Context)
    (v : List (String × Option String × Option Context)) :
    (c.withImports v).error = c.error := by
  cases c; rfl

theorem extractStmt_error (resolve : String → Cache → Option Context × Cache)
    (mode : Mode) (base : String) (s : Stmt) (defs : Context) (cache : Cache) :
    ((extractStmt resolve mode base s defs cache).1).error = defs.error := by
  cases s <;>
    simp only [extractStmt, error_withVars, error_withFuns, error_withClasses,
      error_withImports]
  case importFrom mod aliases src =>
    cases mod with
    | none => simp [error_withImports]
    | some m =>
      by_cases hm : m = ""
      · simp [hm, error_withImports]
      · simp only [hm, ne_eq, not_false_iff, if_true, reduceIte]
        split <;> simp [error_withImports]

theorem extract_error (resolve : String → Cache → Option Context × Cache)
    (mode : Mode) (base : String) :
    ∀ (stmts : List Stmt) (defs : Context) (cache : Cache),
      ((_extract_definitions_from_tree resolve mode base stmts defs cache).1).error
        = defs.error := by
  intro stmts
  induction stmts with
  | nil => intro defs cache; rfl
  | cons s rest ih =>
      intro defs cache
      simp only [_extract_definitions_from_tree]
      rw [ih, extractStmt_error]

/-- The imported module of the aliased-import scenario: `m.py` defining
top-level functions `a` and `b`. -/
def aliasDemoModuleTree : List Stmt :=
  [Stmt.funcDecl "a" "" [] none [Stmt.pass],
   Stmt.funcDecl "b" "" [] none [Stmt.pass]]

/-- The entrypoint of the aliased-import scenario: `from m import a as b`. -/
def aliasDemoMainTree : List Stmt :=
  [Stmt.importFrom (some "m") [⟨"a", some "b"⟩] "from m import a as b"]

/-- Adapter instance for the aliased-import scenario. -/
def aliasDemoParse : ParseFn := fun s =>
  if s == "MAIN" then .ok aliasDemoMainTree
  else if s == "MSRC" then .ok aliasDemoModuleTree
  else .error ⟨1, "invalid syntax"⟩

/-- Storage for the aliased-import scenario: only `/dir/m.py` exists. -/
def aliasDemoStorage : Storage := fun p =>
  if p == "/dir/m.py" then some "MSRC" else none

/-- C1. The claim as stated is false on the code: for the from-import
`from m import a as b`, the name bound by the statement is `b`, yet the
pruned resolution of `m` (which defines both `a` and `b`) retains exactly
the member named `a` — the original imported name — and drops the member
`b` whose name is the bound one. The pruner matches against `alias.name`,
not against the bound names. -/
theorem C1_counterexample :
    ((parse_file aliasDemoParse aliasDemoStorage 2 [] "/dir/main.py" Mode.pruned
        (some "MAIN")).1.map
      (fun c => c.imports.map
        (fun i => (i.2.1, (i.2.2).map (fun rc => rc.functions.map FuncInfo.name)))))
      = some [(some "m", some ["a"])]
    ∧ boundNames [⟨"a", some "b"⟩] = ["b"]
    ∧ ((cacheLookup (parse_file aliasDemoParse aliasDemoStorage 2 [] "/dir/main.py"
          Mode.pruned (some "MAIN")).2 "/dir/m.py").map
        (fun c => c.functions.map FuncInfo.name)) = some ["a", "b"]
    ∧ ("a" : String) ∉ (["b"] : List String) := by
  refine ⟨rfl, rfl, rfl, ?_⟩
  decide

/-- C1 (amended): pruning an imported module's Context in `pruned` mode
retains exactly those top-level variables, functions, and classes whose
name exactly matches one of the names listed in the triggering from-import
statement (the original imported names, before any `as` rename), and no
others. -/
theorem C1_pruned_exactness (ctx : Context) (ns : List String) :
    (∀ f : FuncInfo,
        f ∈ (_prune_context ctx ns Mode.pruned).functions ↔
          f ∈ ctx.functions ∧ f.name ∈ ns)
    ∧ (∀ c : ClassInfo,
        c ∈ (_prune_context ctx ns Mode.pruned).classes ↔
          c ∈ ctx.classes ∧ c.name ∈ ns)
    ∧ (∀ kv : String × String,
        kv ∈ (_prune_context ctx ns Mode.pruned).variables ↔
          kv ∈ ctx.variables ∧ kv.1 ∈ ns) := by
  refine ⟨fun f => ?_, fun c => ?_, fun kv => ?_⟩ <;>
    simp [_prune_context, Context.functions, Context.classes, Context.variables,
      List.mem_filter]

/-- C2. The claim is right and the code is wrong on boolean literals: a
function whose returned value is the boolean literal `True` renders with
the label `-> int`, not the boolean label, because Python's `bool` is a
subclass of `int` and the renderer tests `isinstance(val, int)` before its
(therefore unreachable) `isinstance(val, bool)` branch. -/
theorem C2_bool_literal_renders_int :
    funcBlock (parse_function "f" "" [] none
        [Stmt.ret (some (Expr.constant (PyVal.vBool true)))])
      = ["def f() -> int:", "    # some code lines", "    return True", ""]
    ∧ funcBlock (parse_function "g" "" [] none
        [Stmt.ret (some (Expr.constant (PyVal.vStr "hi")))])
      = ["def g() -> str:", "    # some code lines", "    return \x27hi\x27", ""]
    ∧ funcBlock (parse_function "h" "x" [] none [Stmt.pass])
      = ["def h(x) -> None:", "    # some code lines", ""] :=
  ⟨rfl, rfl, rfl⟩

/-- C4. The claim as stated is false on the code: for a module defining
only the function `_a` and the import `from m import _a`, the name `_a` is
bound by the import and retained under `pruned` mode, but `intelligent`
mode drops it for its leading underscore, so the `intelligent` declaration
set is not a superset of the bound-name-restricted `pruned` set. -/
theorem C4_counterexample :
    ((_prune_context
        (Context.mk "m.py" [] [] [⟨"_a", "", [], none, none, none, none, []⟩] [] none)
        ["_a"] Mode.pruned).functions.map FuncInfo.name = ["_a"])
    ∧ ((_prune_context
        (Context.mk "m.py" [] [] [⟨"_a", "", [], none, none, none, none, []⟩] [] none)
        ["_a"] Mode.intelligent).functions.map FuncInfo.name = [])
    ∧ ("_a" : String) ∈ (["_a"] : List String) := by
  refine ⟨rfl, rfl, ?_⟩
  decide

/-- C4 (amended): for a fixed source, the declaration set rendered under
`full` is a superset of `intelligent`'s, and — provided no name bound by
the import begins with an underscore — `intelligent`'s is a superset of
`pruned`'s restricted to the imported names. -/
theorem C4_mode_monotonicity (ctx : Context) (ns : List String)
    (h : ∀ n ∈ ns, pyStartsWithUnderscore n = false) :
    (∀ f ∈ (_prune_context ctx ns Mode.intelligent).functions,
        f ∈ (_prune_context ctx ns Mode.full).functions)
    ∧ (∀ c ∈ (_prune_context ctx ns Mode.intelligent).classes,
        c ∈ (_prune_context ctx ns Mode.full).classes)
    ∧ (∀ kv ∈ (_prune_context ctx ns Mode.intelligent).variables,
        kv ∈ (_prune_context ctx ns Mode.full).variables)
    ∧ (∀ f ∈ (_prune_context ctx ns Mode.pruned).functions,
        f ∈ (_prune_context ctx ns Mode.intelligent).functions)
    ∧ (∀ c ∈ (_prune_context ctx ns Mode.pruned).classes,
        c ∈ (_prune_context ctx ns Mode.intelligent).classes)
    ∧ (∀ kv ∈ (_prune_context ctx ns Mode.pruned).variables,
        kv ∈ (_prune_context ctx ns Mode.intelligent).variables) := by
  refine ⟨fun f hf => ?_, fun c hc => ?_, fun kv hkv => ?_,
    fun f hf => ?_, fun c hc => ?_, fun kv hkv => ?_⟩ <;>
    simp only [_prune_context, Context.functions, Context.classes,
      Context.variables, List.mem_filter, decide_eq_true_eq] at * <;>
    [exact hf.1; exact hc.1; exact hkv.1;
     exact ⟨hf.1, by simp [h _ hf.2]⟩;
     exact ⟨hc.1, by simp [h _ hc.2]⟩;
     exact ⟨hkv.1, by simp [h _ hkv.2]⟩]

/-- C4 witness: a module with a public and an underscore-named function,
then imported by its public name. -/
theorem C4_mode_monotonicity_witness :
    (∀ n ∈ (["pub"] : List String), pyStartsWithUnderscore n = false)
    ∧ ((∀ f ∈ (_prune_context
          (Context.mk "m.py" [] [("v", "1")]
            [⟨"pub", "", [], none, none, none, none, []⟩,
             ⟨"_priv", "", [], none, none, none, none, []⟩] [] none)
          ["pub"] Mode.intelligent).functions,
        f ∈ (_prune_context
          (Context.mk "m.py" [] [("v", "1")]
            [⟨"pub", "", [], none, none, none, none, []⟩,
             ⟨"_priv", "", [], none, none, none, none, []⟩] [] none)
          ["pub"] Mode.full).functions)
      ∧ (∀ c ∈ (_prune_context
          (Context.mk "m.py" [] [("v", "1")]
            [⟨"pub", "", [], none, none, none, none, []⟩,
             ⟨"_priv", "", [], none, none, none, none, []⟩] [] none)
          ["pub"] Mode.intelligent).classes,
        c ∈ (_prune_context
          (Context.mk "m.py" [] [("v", "1")]
            [⟨"pub", "", [], none, none, none, none, []⟩,
             ⟨"_priv", "", [], none, none, none, none, []⟩] [] none)
          ["pub"] Mode.full).classes)
      ∧ (∀ kv ∈ (_prune_context
          (Context.mk "m.py" [] [("v", "1")]
            [⟨"pub", "", [], none, none, none, none, []⟩,
             ⟨"_priv", "", [], none, none, none, none, []⟩] [] none)
          ["pub"] Mode.intelligent).variables,
        kv ∈ (_prune_context
          (Context.mk "m.py" [] [("v", "1")]
            [⟨"pub", "", [], none, none, none, none, []⟩,
             ⟨"_priv", "", [], none, none, none, none, []⟩] [] none)
          ["pub"] Mode.full).variables)
      ∧ (∀ f ∈ (_prune_context
          (Context.mk "m.py" [] [("v", "1")]
            [⟨"pub", "", [], none, none, none, none, []⟩,
             ⟨"_priv", "", [], none, none, none, none, []⟩] [] none)
          ["pub"] Mode.pruned).functions,
        f ∈ (_prune_context
          (Context.mk "m.py" [] [("v", "1")]
            [⟨"pub", "", [], none, none, none, none, []⟩,
             ⟨"_priv", "", [], none, none, none, none, []⟩] [] none)
          ["pub"] Mode.intelligent).functions)
      ∧ (∀ c ∈ (_prune_context
          (Context.mk "m.py" [] [("v", "1")]
            [⟨"pub", "", [], none, none, none, none, []⟩,
             ⟨"_priv", "", [], none, none, none, none, []⟩] [] none)
          ["pub"] Mode.pruned).classes,
        c ∈ (_prune_context
          (Context.mk "m.py" [] [("v", "1")]
            [⟨"pub", "", [], none, none, none, none, []⟩,
             ⟨"_priv", "", [], none, none, none, none, []⟩] [] none)
          ["pub"] Mode.intelligent).classes)
      ∧ (∀ kv ∈ (_prune_context
          (Context.mk "m.py" [] [("v", "1")]
            [⟨"pub", "", [], none, none, none, none, []⟩,
             ⟨"_priv", "", [], none, none, none, none, []⟩] [] none)
          ["pub"] Mode.pruned).variables,
        kv ∈ (_prune_context
          (Context.mk "m.py" [] [("v", "1")]
            [⟨"pub", "", [], none, none, none, none, []⟩,
             ⟨"_priv", "", [], none, none, none, none, []⟩] [] none)
          ["pub"] Mode.intelligent).variables)) :=
  ⟨by decide, C4_mode_monotonicity _ _ (by decide)⟩

/-- C7: pruning under any non-`full` mode clears the pruned Context's
own import list, so rendering never recurses into transitive imports. -/
theorem C7_nonfull_clears_imports (ctx : Context) (ns : List String)
    (mode : Mode) (h : mode ≠ Mode.full) :
    (_prune_context ctx ns mode).imports = [] := by
  cases mode with
  | full => exact absurd rfl h
  | intelligent => rfl
  | pruned => rfl

/-- C7 witness: a context that does carry an import record, pruned under
`pruned` mode. -/
theorem C7_nonfull_clears_imports_witness :
    Mode.pruned ≠ Mode.full
    ∧ (_prune_context
        (Context.mk "x.py" [("import os", none, none)] [] [] [] none)
        [] Mode.pruned).imports = [] :=
  ⟨by decide, C7_nonfull_clears_imports _ _ _ (by decide)⟩

theorem parse_file_cache_hit (P : ParseFn) (st : Storage) (fuel : Nat)
    (cache : Cache) (p : String) (mode : Mode) (copt : Option String)
    (ctx : Context) (h : cacheLookup cache (abspath p) = some ctx) :
    parse_file P st (fuel + 1) cache p mode copt = (some ctx, cache) := by
  simp [parse_file, parse_file_step, h]

theorem cacheLookup_cons_self (abs : String) (ctx : Context) (cache : Cache) :
    cacheLookup ((abs, ctx) :: cache) abs = some ctx := by
  simp [cacheLookup]

theorem parse_file_result_cached (P : ParseFn) (st : Storage) (fuel : Nat)
    (cache : Cache) (p : String) (mode : Mode) (copt : Option String)
    (ctx : Context) (cache2 : Cache)
    (h : parse_file P st fuel cache p mode copt = (some ctx, cache2)) :
    cacheLookup cache2 (abspath p) = some ctx := by
  cases fuel with
  | zero => simp [parse_file] at h
  | succ fuel =>
      simp only [parse_file, parse_file_step] at h
      split at h
      · rename_i cached hc
        obtain ⟨h1, h2⟩ := Prod.mk.injEq .. ▸ h
        cases h1; cases h2
        simpa using hc
      · split at h
        · simp at h
        · split at h
          · obtain ⟨h1, h2⟩ := Prod.mk.injEq .. ▸ h
            cases h1; cases h2
            exact cacheLookup_cons_self ..
          · split at h
            · obtain ⟨h1, h2⟩ := Prod.mk.injEq .. ▸ h
              cases h1; cases h2
              exact cacheLookup_cons_self ..
            · obtain ⟨h1, h2⟩ := Prod.mk.injEq .. ▸ h
              cases h1; cases h2
              exact cacheLookup_cons_self ..

/-- C6: within one run, a resolution of an absolute path that produced a
Context leaves the cache holding exactly that Context, so any later
resolution of the same path — with any parser, any storage, any mode and
any supplied content — returns the identical Context and the unchanged
cache, without reading storage or re-parsing. -/
theorem C6_second_resolution_is_cache_hit (P : ParseFn) (st : Storage)
    (fuel : Nat) (cache : Cache) (p : String) (mode : Mode)
    (copt : Option String) (ctx : Context) (cache2 : Cache)
    (h : parse_file P st fuel cache p mode copt = (some ctx, cache2)) :
    ∀ (P2 : ParseFn) (st2 : Storage) (fuel2 : Nat) (mode2 : Mode)
      (copt2 : Option String),
      parse_file P2 st2 (fuel2 + 1) cache2 p mode2 copt2 = (some ctx, cache2) :=
  fun P2 st2 fuel2 mode2 copt2 =>
    parse_file_cache_hit P2 st2 fuel2 cache2 p mode2 copt2 ctx
      (parse_file_result_cached P st fuel cache p mode copt ctx cache2 h)

/-- C6 witness: a cached path resolved twice. -/
theorem C6_second_resolution_is_cache_hit_witness :
    parse_file (fun _ => .error ⟨1, "invalid syntax"⟩) (fun _ => none) (0 + 1)
      [("/a.py", Context.mk "a.py" [] [] [] [] none)] "/a.py" Mode.full none
      = (some (Context.mk "a.py" [] [] [] [] none),
         [("/a.py", Context.mk "a.py" [] [] [] [] none)]) :=
  C6_second_resolution_is_cache_hit
    (fun _ => .error ⟨1, "invalid syntax"⟩) (fun _ => none) 1
    [("/a.py", Context.mk "a.py" [] [] [] [] none)] "/a.py" Mode.full none
    (Context.mk "a.py" [] [] [] [] none)
    [("/a.py", Context.mk "a.py" [] [] [] [] none)] rfl
    (fun _ => .error ⟨1, "invalid syntax"⟩) (fun _ => none) 0 Mode.full none

theorem parse_file_double_failure (P : ParseFn) (st : Storage) (fuel : Nat)
    (cache : Cache) (p : String) (mode : Mode) (copt : Option String)
    (content : String) (e e2 : SynErr)
    (hc : cacheLookup cache (abspath p) = none)
    (hcontent : (match copt with | some c => some c | none => st (abspath p))
      = some content)
    (h1 : P content = .error e)
    (h2 : P (removeLine content e.lineno) = .error e2) :
    parse_file P st (fuel + 1) cache p mode copt =
      (some ((emptyContext (basename (abspath p))).withError
          (some (doubleErrorMsg e2))),
       (abspath p, (emptyContext (basename (abspath p))).withError
          (some (doubleErrorMsg e2))) :: cache) := by
  simp [parse_file, parse_file_step, hc, hcontent, h1, h2]

/-- C3 (amended): when both the original parse and the single line-deleting
retry fail, the resulting Context carries an error field summarizing the
final failure as the retry reported it (its message and its position in the
already-modified text), while every declaration field is left empty; the
deleted line's own number is emitted only to the diagnostic channel, not
into the error field. -/
theorem C3_double_failure_error_only (P : ParseFn) (st : Storage) (fuel : Nat)
    (cache : Cache) (p : String) (mode : Mode) (copt : Option String)
    (content : String) (e e2 : SynErr)
    (hc : cacheLookup cache (abspath p) = none)
    (hcontent : (match copt with | some c => some c | none => st (abspath p))
      = some content)
    (h1 : P content = .error e)
    (h2 : P (removeLine content e.lineno) = .error e2) :
    ∃ ctx : Context,
      parse_file P st (fuel + 1) cache p mode copt
        = (some ctx, (abspath p, ctx) :: cache)
      ∧ ctx.error = some ("File contains multiple errors. Last error: "
          ++ renderExc e2)
      ∧ ctx.module_name = basename (abspath p)
      ∧ ctx.imports = [] ∧ ctx.variables = []
      ∧ ctx.functions = [] ∧ ctx.classes = [] := by
  refine ⟨(emptyContext (basename (abspath p))).withError (some (doubleErrorMsg e2)),
    parse_file_double_failure P st fuel cache p mode copt content e e2
      hc hcontent h1 h2, rfl, rfl, rfl, rfl, rfl, rfl⟩

/-- C3 witness: both parses of a three-line file fail. -/
theorem C3_double_failure_error_only_witness :
    cacheLookup [] (abspath "/f.py") = none
    ∧ (∃ ctx : Context,
        parse_file (fun _ => .error ⟨1, "invalid syntax"⟩) (fun _ => none)
            (0 + 1) [] "/f.py" Mode.intelligent (some "a\nb\nc")
          = (some ctx, (abspath "/f.py", ctx) :: [])
        ∧ ctx.error = some ("File contains multiple errors. Last error: "
            ++ renderExc ⟨1, "invalid syntax"⟩)
        ∧ ctx.module_name = basename (abspath "/f.py")
        ∧ ctx.imports = [] ∧ ctx.variables = []
        ∧ ctx.functions = [] ∧ ctx.classes = []) :=
  ⟨rfl, C3_double_failure_error_only (fun _ => .error ⟨1, "invalid syntax"⟩)
    (fun _ => none) 0 [] "/f.py" Mode.intelligent (some "a\nb\nc") "a\nb\nc"
    ⟨1, "invalid syntax"⟩ ⟨1, "invalid syntax"⟩ rfl rfl rfl rfl⟩

/-- Parser of the first deleted-line scenario: the original text fails at
line 1; any modified text fails with the same final error. -/
def delLineP1 : ParseFn := fun s =>
  if s == "a\nb\nc" then .error ⟨1, "first"⟩ else .error ⟨7, "bad"⟩

/-- Parser of the second deleted-line scenario: the original text fails at
line 2; any modified text fails with the same final error. -/
def delLineP2 : ParseFn := fun s =>
  if s == "a\nb\nc" then .error ⟨2, "second"⟩ else .error ⟨7, "bad"⟩

/-- C3. The claim's "including the deleted-line line number" is false on
the code: two runs on the same text whose first failures are at line 1 and
line 2 respectively (so different lines are deleted) but whose retries fail
identically produce byte-identical error fields, so the error field cannot
carry the deleted-line number — that number goes only to the diagnostic
channel. -/
theorem C3_counterexample :
    delLineP1 "a\nb\nc" = .error ⟨1, "first"⟩
    ∧ delLineP2 "a\nb\nc" = .error ⟨2, "second"⟩
    ∧ removeLine "a\nb\nc" 1 = "b\nc"
    ∧ removeLine "a\nb\nc" 2 = "a\nc"
    ∧ ((parse_file delLineP1 (fun _ => none) 1 [] "/f.py" Mode.full
          (some "a\nb\nc")).1.map Context.error
        = some (some "File contains multiple errors. Last error: bad (line 7)"))
    ∧ ((parse_file delLineP2 (fun _ => none) 1 [] "/f.py" Mode.full
          (some "a\nb\nc")).1.map Context.error
        = some (some "File contains multiple errors. Last error: bad (line 7)")) :=
  ⟨rfl, rfl, rfl, rfl, rfl, rfl⟩

/-- C5: when the original parse fails at a reported line and the parse of
the text with that line deleted succeeds, `parse_file` returns — after
exactly one retry — the Context extracted from the repaired tree, with no
error field, and caches it. -/
theorem C5_single_retry_recovers (P : ParseFn) (st : Storage) (fuel : Nat)
    (cache : Cache) (p : String) (mode : Mode) (copt : Option String)
    (content : String) (e : SynErr) (tree : List Stmt)
    (hc : cacheLookup cache (abspath p) = none)
    (hcontent : (match copt with | some c => some c | none => st (abspath p))
      = some content)
    (h1 : P content = .error e)
    (h2 : P (removeLine content e.lineno) = .ok tree) :
    ∃ (defs : Context) (cache2 : Cache),
      parse_file P st (fuel + 1) cache p mode copt
        = (some defs, (abspath p, defs) :: cache2)
      ∧ (defs, cache2) = _extract_definitions_from_tree
          (fun path c => parse_file P st fuel c path mode none) mode
          (dirname (abspath p)) tree (emptyContext (basename (abspath p))) cache
      ∧ defs.error = none := by
  refine ⟨(_extract_definitions_from_tree
      (fun path c => parse_file P st fuel c path mode none) mode
      (dirname (abspath p)) tree (emptyContext (basename (abspath p))) cache).1,
    (_extract_definitions_from_tree
      (fun path c => parse_file P st fuel c path mode none) mode
      (dirname (abspath p)) tree (emptyContext (basename (abspath p))) cache).2,
    ?_, rfl, ?_⟩
  · simp [parse_file, parse_file_step, hc, hcontent, h1, h2]
  · rw [extract_error]
    rfl

/-- C5 witness: a two-line file whose first line is unparseable; the
repaired text parses to a single assignment, which survives intact. -/
theorem C5_single_retry_recovers_witness :
    (cacheLookup [] (abspath "/f.py") = none)
    ∧ ((fun s => if s == "x = 1"
          then Except.ok [Stmt.assign [Target.tname "x"] (Expr.constant (PyVal.vInt 1))]
          else Except.error ⟨1, "invalid syntax"⟩) : ParseFn) "bad(\nx = 1"
        = .error ⟨1, "invalid syntax"⟩
    ∧ (∃ (defs : Context) (cache2 : Cache),
        parse_file (fun s => if s == "x = 1"
            then Except.ok [Stmt.assign [Target.tname "x"] (Expr.constant (PyVal.vInt 1))]
            else Except.error ⟨1, "invalid syntax"⟩) (fun _ => none)
            (0 + 1) [] "/f.py" Mode.intelligent (some "bad(\nx = 1")
          = (some defs, (abspath "/f.py", defs) :: cache2)
        ∧ (defs, cache2) = _extract_definitions_from_tree
            (fun path c => parse_file (fun s => if s == "x = 1"
                then Except.ok [Stmt.assign [Target.tname "x"] (Expr.constant (PyVal.vInt 1))]
                else Except.error ⟨1, "invalid syntax"⟩) (fun _ => none) 0 c path
              Mode.intelligent none) Mode.intelligent
            (dirname (abspath "/f.py"))
            [Stmt.assign [Target.tname "x"] (Expr.constant (PyVal.vInt 1))]
            (emptyContext (basename (abspath "/f.py"))) []
        ∧ defs.error = none) :=
  ⟨rfl, rfl, C5_single_retry_recovers _ _ 0 [] "/f.py" Mode.intelligent
    (some "bad(\nx = 1") "bad(\nx = 1" ⟨1, "invalid syntax"⟩
    [Stmt.assign [Target.tname "x"] (Expr.constant (PyVal.vInt 1))]
    rfl rfl rfl rfl⟩

/-- C10: an error-carrying Context produced by a double parse failure is
cached like any other, so every later resolution of that absolute path
returns the identical error Context with no further storage read or parse;
a missing-file resolution returns no Context and leaves the cache
untouched, so each later resolution of that path consults storage again. -/
theorem C10_error_cached_missing_file_not (P : ParseFn) (st : Storage)
    (fuel : Nat) (cache : Cache) (p : String) (mode : Mode) :
    (∀ (copt : Option String) (content : String) (e e2 : SynErr),
      cacheLookup cache (abspath p) = none →
      (match copt with | some c => some c | none => st (abspath p))
        = some content →
      P content = .error e →
      P (removeLine content e.lineno) = .error e2 →
      ∃ ctx : Context,
        parse_file P st (fuel + 1) cache p mode copt
          = (some ctx, (abspath p, ctx) :: cache)
        ∧ ctx.error.isSome = true
        ∧ ∀ (P2 : ParseFn) (st2 : Storage) (fuel2 : Nat) (mode2 : Mode)
            (copt2 : Option String),
            parse_file P2 st2 (fuel2 + 1) ((abspath p, ctx) :: cache) p mode2
              copt2 = (some ctx, (abspath p, ctx) :: cache))
    ∧ (cacheLookup cache (abspath p) = none → st (abspath p) = none →
        parse_file P st (fuel + 1) cache p mode none = (none, cache)) := by
  constructor
  · intro copt content e e2 hc hcontent h1 h2
    refine ⟨(emptyContext (basename (abspath p))).withError
        (some (doubleErrorMsg e2)),
      parse_file_double_failure P st fuel cache p mode copt content e e2
        hc hcontent h1 h2, rfl, ?_⟩
    intro P2 st2 fuel2 mode2 copt2
    exact parse_file_cache_hit P2 st2 fuel2 _ p mode2 copt2 _
      (cacheLookup_cons_self ..)
  · intro hc hst
    simp [parse_file, parse_file_step, hc, hst]

/-- C10 witness: the error-context path on an always-failing parser, and
the missing-file path on empty storage. -/
theorem C10_error_cached_missing_file_not_witness :
    (cacheLookup [] (abspath "/g.py") = none
      ∧ ((fun _ => Except.error ⟨3, "broken"⟩ : ParseFn) "z")
          = .error ⟨3, "broken"⟩
      ∧ (∃ ctx : Context,
          parse_file (fun _ => .error ⟨3, "broken"⟩) (fun _ => none) (0 + 1)
              [] "/g.py" Mode.full (some "z")
            = (some ctx, (abspath "/g.py", ctx) :: [])
          ∧ ctx.error.isSome = true
          ∧ ∀ (P2 : ParseFn) (st2 : Storage) (fuel2 : Nat) (mode2 : Mode)
              (copt2 : Option String),
              parse_file P2 st2 (fuel2 + 1) ((abspath "/g.py", ctx) :: []) "/g.py"
                mode2 copt2 = (some ctx, (abspath "/g.py", ctx) :: [])))
    ∧ parse_file (fun _ => .error ⟨3, "broken"⟩) (fun _ => none) (0 + 1)
        [] "/g.py" Mode.full none = (none, []) :=
  ⟨⟨rfl, rfl,
    (C10_error_cached_missing_file_not (fun _ => .error ⟨3, "broken"⟩)
      (fun _ => none) 0 [] "/g.py" Mode.full).1 (some "z") "z"
      ⟨3, "broken"⟩ ⟨3, "broken"⟩ rfl rfl rfl rfl⟩,
   (C10_error_cached_missing_file_not (fun _ => .error ⟨3, "broken"⟩)
      (fun _ => none) 0 [] "/g.py" Mode.full).2 rfl rfl⟩

/-- The first-encountered, module-deduplicated walk of the entrypoint's
records of imports, written as the specification describes it: a record that
carries a resolved context contributes its rendering the first time its
target module is seen. -/
def firstEncounteredRenders :
    List (String × Option String × Option Context) → List (Option String) →
    List String
  | [], _ => []
  | imp :: rest, seen =>
      match imp.2.2 with
      | some rc =>
          if imp.2.1 ∈ seen then firstEncounteredRenders rest seen
          else format_context_as_text rc ::
            firstEncounteredRenders rest (seen ++ [imp.2.1])
      | none => firstEncounteredRenders rest seen

theorem importTextsFold_eq_firstEncountered
    (imports : List (String × Option String × Option Context)) :
    ∀ (texts : List String) (seen : List (Option String)),
      (imports.foldl (fun acc imp =>
        match imp.2.2 with
        | some rc =>
            if imp.2.1 ∈ acc.2 then acc
            else (acc.1 ++ [format_context_as_text rc], acc.2 ++ [imp.2.1])
        | none => acc) (texts, seen)).1
        = texts ++ firstEncounteredRenders imports seen := by
  induction imports with
  | nil => intro texts seen; simp [firstEncounteredRenders]
  | cons imp rest ih =>
      intro texts seen
      simp only [List.foldl_cons, firstEncounteredRenders]
      cases hrc : imp.2.2 with
      | none => simpa using ih texts seen
      | some rc =>
          by_cases hseen : imp.2.1 ∈ seen
          · simpa [hrc, hseen] using ih texts seen
          · simpa [hrc, hseen] using ih (texts ++ [format_context_as_text rc])
              (seen ++ [imp.2.1])

/-- C8: for a non-error entrypoint Context, the primary output is the
rendered entrypoint followed — when any exist — by the single separating
banner and the rendered text of each distinct resolved import, in
first-encountered order, deduplicated by target module. -/
theorem C8_main_output_shape (ctx : Context) (path : String)
    (h : ctx.error = none) :
    mainOutput (some ctx) path =
      String.intercalate "\n"
        ([format_context_as_text ctx]
          ++ (if firstEncounteredRenders ctx.imports [] = [] then []
              else ["\nImported files content", "======================"]
                ++ firstEncounteredRenders ctx.imports [])) := by
  have hfold := importTextsFold_eq_firstEncountered ctx.imports [] []
  simp only [mainOutput, importTextsFold, h, Option.isSome_none,
    Bool.false_eq_true, if_false, reduceIte, hfold, List.nil_append]
  by_cases hempty : firstEncounteredRenders ctx.imports [] = [] <;>
    simp [hempty]

/-- C8 witness: an entrypoint with two resolved imports of the same module
and one of another; the duplicate is rendered once. -/
theorem C8_main_output_shape_witness :
    (Context.mk "main.py"
        [("from m import a", some "m", some (Context.mk "m.py" [] [] [] [] none)),
         ("from m import b", some "m", some (Context.mk "m2.py" [] [] [] [] none)),
         ("from k import x", some "k", some (Context.mk "k.py" [] [] [] [] none))]
        [] [] [] none).error = none
    ∧ mainOutput (some (Context.mk "main.py"
        [("from m import a", some "m", some (Context.mk "m.py" [] [] [] [] none)),
         ("from m import b", some "m", some (Context.mk "m2.py" [] [] [] [] none)),
         ("from k import x", some "k", some (Context.mk "k.py" [] [] [] [] none))]
        [] [] [] none)) "/dir/main.py" =
      String.intercalate "\n"
        ([format_context_as_text (Context.mk "main.py"
            [("from m import a", some "m", some (Context.mk "m.py" [] [] [] [] none)),
             ("from m import b", some "m", some (Context.mk "m2.py" [] [] [] [] none)),
             ("from k import x", some "k", some (Context.mk "k.py" [] [] [] [] none))]
            [] [] [] none)]
          ++ (if firstEncounteredRenders (Context.mk "main.py"
                [("from m import a", some "m", some (Context.mk "m.py" [] [] [] [] none)),
                 ("from m import b", some "m", some (Context.mk "m2.py" [] [] [] [] none)),
                 ("from k import x", some "k", some (Context.mk "k.py" [] [] [] [] none))]
                [] [] [] none).imports [] = [] then []
              else ["\nImported files content", "======================"]
                ++ firstEncounteredRenders (Context.mk "main.py"
                    [("from m import a", some "m", some (Context.mk "m.py" [] [] [] [] none)),
                     ("from m import b", some "m", some (Context.mk "m2.py" [] [] [] [] none)),
                     ("from k import x", some "k", some (Context.mk "k.py" [] [] [] [] none))]
                    [] [] [] none).imports [])) :=
  ⟨rfl, C8_main_output_shape _ "/dir/main.py" rfl⟩

/-- C9: rendering a constructor with at least one collected self-assignment
emits every collected assignment statement, in original order, each on its
own line directly before the body-marker line, and omits the trailing
return line even when a return expression was recorded. -/
theorem C9_constructor_rendering (args : String) (decorators : List String)
    (returns : Option String) (body : List Stmt)
    (h : initAssignments body ≠ []) :
    methodBlock (parse_function "__init__" args decorators returns body) =
      decorators.map (fun d => "    @" ++ d)
        ++ ["    def __init__(" ++ args ++ ")"
            ++ methodRetStr (parse_function "__init__" args decorators returns body)
            ++ ":"]
        ++ docLine "        " (get_docstring body)
        ++ (initAssignments body).map (fun a => "        " ++ a)
        ++ ["        # some code lines", ""] := by
  have hInits : (parse_function "__init__" args decorators returns body).init_assignments
      = initAssignments body := by
    simp [parse_function]
  have hEmpty : (parse_function "__init__" args decorators returns body).init_assignments.isEmpty
      = false := by
    rw [hInits]
    cases hb : initAssignments body with
    | nil => exact absurd hb h
    | cons a rest => rfl
  simp only [methodBlock, hInits]
  rcases hret : (parse_function "__init__" args decorators returns body).return_expression with _ | r
  · simp [parse_function]
  · have hname : (parse_function "__init__" args decorators returns body).name
        = "__init__" := by simp [parse_function]
    simp [hname, hEmpty, parse_function]
    exact h

/-- C9 witness: a constructor assigning two instance attributes and ending
in a return statement; both assignments render verbatim in order and the
return line is omitted. -/
theorem C9_constructor_rendering_witness :
    initAssignments
        [Stmt.assign [Target.tattr (Expr.name "self") "x"] (Expr.name "a"),
         Stmt.assign [Target.tattr (Expr.name "self") "y"] (Expr.constant (PyVal.vInt 5)),
         Stmt.ret (some (Expr.name "a"))] ≠ []
    ∧ methodBlock (parse_function "__init__" "self, a" [] none
        [Stmt.assign [Target.tattr (Expr.name "self") "x"] (Expr.name "a"),
         Stmt.assign [Target.tattr (Expr.name "self") "y"] (Expr.constant (PyVal.vInt 5)),
         Stmt.ret (some (Expr.name "a"))]) =
      ["    def __init__(self, a) -> None:",
       "        self.x = a",
       "        self.y = 5",
       "        # some code lines",
       ""] :=
  ⟨by simp [initAssignments, isSelfAttrTarget, assignUnparse],
   C9_constructor_rendering "self, a" [] none
    [Stmt.assign [Target.tattr (Expr.name "self") "x"] (Expr.name "a"),
     Stmt.assign [Target.tattr (Expr.name "self") "y"] (Expr.constant (PyVal.vInt 5)),
     Stmt.ret (some (Expr.name "a"))]
    (by simp [initAssignments, isSelfAttrTarget, assignUnparse])⟩

end PythonParser
